import Mathlib

/-!
Verification of the Orka connection/session protocol layer.

The definitions below are a shallow embedding of the Python sources:
bytes are `List Nat` (each element `< 256` where it matters), Python
`Optional[T]` is `Option T`, Python dicts used as JSON objects are
association lists, and `asyncio.Future` objects are an explicit
`FutureState` value.  Each definition's doc comment names the source
function it embeds.
-/

namespace Orka

/-! ## Binary frame codec

Client side: `NetworkLogic.send_binary_message` (src/client/network_logic.py,
lines 444-467) builds `prefix + sequence.to_bytes(4, "big") +
stream_id.encode("utf-8") + b"\x00" + data`.

Server side: `handle_client_binary_message` (src/server/main_server.py,
lines 173-259) parses that layout back.  Only the parsing part (up to the
`(prefix, sequence, stream_id, media_payload)` tuple) is embedded here;
the media dispatch that follows it does not affect the codec claims. -/

/-- Big-endian 4-byte encoding, embedding Python `sequence.to_bytes(4, "big")`
(which requires `sequence < 2^32`). -/
def natToBytesBE4 (n : Nat) : List Nat :=
  [n / 2 ^ 24 % 256, n / 2 ^ 16 % 256, n / 2 ^ 8 % 256, n % 256]

/-- Big-endian decoding, embedding Python `int.from_bytes(bytes, "big")`. -/
def natFromBytesBE (l : List Nat) : Nat :=
  l.foldl (fun a b => a * 256 + b) 0

/-- A UTF-8 continuation byte (`10xxxxxx`). -/
def isUtf8Cont (b : Nat) : Bool := 0x80 ≤ b && b ≤ 0xBF

/-- Validity of a byte list as UTF-8, embedding the success condition of
Python `bytes.decode("utf-8")` (rejecting overlong forms and surrogates);
on failure the server logs and drops the message. -/
def validUtf8 : List Nat → Bool
  | [] => true
  | b :: rest =>
    if b ≤ 0x7F then validUtf8 rest
    else if 0xC2 ≤ b && b ≤ 0xDF then
      match rest with
      | c1 :: rest2 => isUtf8Cont c1 && validUtf8 rest2
      | [] => false
    else if b = 0xE0 then
      match rest with
      | c1 :: c2 :: rest2 =>
        (0xA0 ≤ c1 && c1 ≤ 0xBF) && isUtf8Cont c2 && validUtf8 rest2
      | _ => false
    else if (0xE1 ≤ b && b ≤ 0xEC) || b = 0xEE || b = 0xEF then
      match rest with
      | c1 :: c2 :: rest2 => isUtf8Cont c1 && isUtf8Cont c2 && validUtf8 rest2
      | _ => false
    else if b = 0xED then
      match rest with
      | c1 :: c2 :: rest2 =>
        (0x80 ≤ c1 && c1 ≤ 0x9F) && isUtf8Cont c2 && validUtf8 rest2
      | _ => false
    else if b = 0xF0 then
      match rest with
      | c1 :: c2 :: c3 :: rest2 =>
        (0x90 ≤ c1 && c1 ≤ 0xBF) && isUtf8Cont c2 && isUtf8Cont c3 && validUtf8 rest2
      | _ => false
    else if 0xF1 ≤ b && b ≤ 0xF3 then
      match rest with
      | c1 :: c2 :: c3 :: rest2 =>
        isUtf8Cont c1 && isUtf8Cont c2 && isUtf8Cont c3 && validUtf8 rest2
      | _ => false
    else if b = 0xF4 then
      match rest with
      | c1 :: c2 :: c3 :: rest2 =>
        (0x80 ≤ c1 && c1 ≤ 0x8F) && isUtf8Cont c2 && isUtf8Cont c3 && validUtf8 rest2
      | _ => false
    else false

/-- The tuple recovered by the server's binary-frame parser: `prefix` is the
4-byte prefix, `streamId` is `None` when the stream-id field is empty
(mirroring `stream_id_bytes.decode("utf-8") if stream_id_bytes else None`),
stream ids are carried as their UTF-8 bytes. -/
structure BinaryFrame where
  prefixBytes : List Nat
  sequence : Nat
  streamId : Option (List Nat)
  payload : List Nat
deriving DecidableEq, Repr

/-- Client encoder `NetworkLogic.send_binary_message` (network_logic.py
444-467), message-building part: `header = prefix; header +=
sequence.to_bytes(4, "big"); header += (stream_id_str.encode("utf-8") if
stream_id_str else b"") + b"\x00"; message = header + data`.  The stream id
is carried as its UTF-8 bytes; both `None` and the empty string contribute
no bytes (Python truthiness of `stream_id_str`). -/
def encodeBinaryFrame (prefixBytes : List Nat) (sequence : Nat)
    (streamId : Option (List Nat)) (payload : List Nat) : List Nat :=
  prefixBytes ++ natToBytesBE4 sequence ++
    (match streamId with
      | some s => s
      | none => []) ++ [0] ++ payload

/-- Server parser, embedding `handle_client_binary_message` (main_server.py
173-259) up to the parsed tuple.  `none` is every logged-and-dropped
outcome: message shorter than `min_len = 4 + 4 + 1`, prefix that is not
ASCII (Python `binary_data[:4].decode("ascii")` raises), no null terminator
at or after offset 8, or stream-id bytes that are not valid UTF-8
(`UnicodeDecodeError`). -/
def decodeBinaryFrame (b : List Nat) : Option BinaryFrame :=
  if b.length < 9 then none
  else
    let p := b.take 4
    if p.all (fun x => x < 128) then
      let sequence := natFromBytesBE ((b.drop 4).take 4)
      let rest := b.drop 8
      let i := rest.findIdx (fun x => x == 0)
      if rest.length ≤ i then none
      else
        let sidBytes := rest.take i
        if sidBytes = [] then
          some ⟨p, sequence, none, rest.drop (i + 1)⟩
        else if validUtf8 sidBytes then
          some ⟨p, sequence, some sidBytes, rest.drop (i + 1)⟩
        else none
    else none

/-- The receive loop (`websocket_endpoint`, main_server.py 358-411) hands
every `bytes` message to `handle_client_binary_message` independently; a
dropped message produces no frame and the loop moves on. -/
def processBinaryMessages (msgs : List (List Nat)) : List BinaryFrame :=
  msgs.filterMap decodeBinaryFrame

lemma natFromBytesBE_natToBytesBE4 (n : Nat) (h : n < 2 ^ 32) :
    natFromBytesBE (natToBytesBE4 n) = n := by
  simp only [natFromBytesBE, natToBytesBE4, List.foldl]
  omega

lemma findIdx_zero_append (sid : List Nat) (payload : List Nat)
    (h : ∀ x ∈ sid, x ≠ 0) :
    (sid ++ 0 :: payload).findIdx (fun x => x == 0) = sid.length := by
  induction sid with
  | nil => simp [List.findIdx_cons]
  | cons a t ih =>
    have ha : (a == 0) = false := by
      have := h a (List.mem_cons_self a t)
      simp [this]
    simp only [List.cons_append, List.findIdx_cons, ha, cond_false, List.length_cons]
    rw [ih (fun x hx => h x (List.mem_cons_of_mem a hx))]

lemma findIdx_eq_length_of_no_zero (l : List Nat) (h : ∀ x ∈ l, x ≠ 0) :
    l.findIdx (fun x => x == 0) = l.length := by
  induction l with
  | nil => simp
  | cons a t ih =>
    have ha : (a == 0) = false := by
      have := h a (List.mem_cons_self a t)
      simp [this]
    simp only [List.findIdx_cons, ha, cond_false, List.length_cons]
    rw [ih (fun x hx => h x (List.mem_cons_of_mem a hx))]

lemma drop_length_succ_append (sid : List Nat) (b : Nat) (payload : List Nat) :
    (sid ++ b :: payload).drop (sid.length + 1) = payload := by
  induction sid with
  | nil => simp
  | cons a t ih => simp [ih]

lemma take_length_append (sid : List Nat) (l : List Nat) :
    (sid ++ l).take sid.length = sid := by
  induction sid with
  | nil => simp
  | cons a t ih => simp [ih]

lemma drop_length_append (sid : List Nat) (l : List Nat) :
    (sid ++ l).drop sid.length = l := by
  induction sid with
  | nil => simp
  | cons a t ih => simp [ih]

lemma drop_append_plus (l₁ l₂ : List Nat) (n : Nat) :
    (l₁ ++ l₂).drop (l₁.length + n) = l₂.drop n := by
  induction l₁ with
  | nil => simp
  | cons a t ih =>
    have h : (a :: t).length + n = (t.length + n) + 1 := by
      simp [Nat.add_right_comm]
    rw [h, List.cons_append, List.drop_succ_cons, ih]

/-- C2 (amended): for every frame tuple whose 4-byte prefix is ASCII (the
server decodes it with `decode("ascii")`), whose sequence fits in 4 bytes,
and whose stream id is a nonempty null-free valid-UTF-8 byte string,
decoding the client-encoded bytes yields back the original tuple.  An
empty stream id instead decodes to a missing (`None`) stream id, since the
wire format cannot distinguish empty from absent — see
`binary_frame_roundtrip_counterexample`. -/
theorem binary_frame_roundtrip (p : List Nat) (seq : Nat)
    (sid : List Nat) (payload : List Nat)
    (hp4 : p.length = 4) (hpAscii : ∀ x ∈ p, x < 128)
    (hseq : seq < 2 ^ 32)
    (hsid0 : ∀ x ∈ sid, x ≠ 0) (hsidNE : sid ≠ [])
    (hsidU : validUtf8 sid = true) :
    decodeBinaryFrame (encodeBinaryFrame p seq (some sid) payload) =
      some ⟨p, seq, some sid, payload⟩ := by
  have hbe : (natToBytesBE4 seq).length = 4 := by simp [natToBytesBE4]
  have henc : encodeBinaryFrame p seq (some sid) payload
      = p ++ (natToBytesBE4 seq ++ (sid ++ 0 :: payload)) := by
    simp [encodeBinaryFrame]
  have hlen9 : ¬ ((p ++ (natToBytesBE4 seq ++ (sid ++ 0 :: payload))).length < 9) := by
    simp only [List.length_append, List.length_cons, hp4, hbe]
    omega
  have hA : (p ++ (natToBytesBE4 seq ++ (sid ++ 0 :: payload))).take 4 = p := by
    rw [← hp4, take_length_append]
  have hAscii : (p.all fun x => decide (x < 128)) = true := by
    simp only [List.all_eq_true, decide_eq_true_eq]
    exact hpAscii
  have hB : (p ++ (natToBytesBE4 seq ++ (sid ++ 0 :: payload))).drop 4
      = natToBytesBE4 seq ++ (sid ++ 0 :: payload) := by
    rw [← hp4]
    exact drop_length_append p _
  have hC : ((p ++ (natToBytesBE4 seq ++ (sid ++ 0 :: payload))).drop 4).take 4
      = natToBytesBE4 seq := by
    rw [hB, ← hbe]
    exact take_length_append _ _
  have hD : (p ++ (natToBytesBE4 seq ++ (sid ++ 0 :: payload))).drop 8
      = sid ++ 0 :: payload := by
    have h8 : (8 : Nat) = p.length + 4 := by rw [hp4]
    rw [h8, drop_append_plus, ← hbe]
    have h4 : (natToBytesBE4 seq).length = (natToBytesBE4 seq).length + 0 := by simp
    rw [h4, drop_append_plus, List.drop_zero]
  have hE : (sid ++ 0 :: payload).findIdx (fun x => x == 0) = sid.length :=
    findIdx_zero_append sid payload hsid0
  have hF : ¬ ((sid ++ 0 :: payload).length ≤ sid.length) := by
    simp only [List.length_append, List.length_cons]
    omega
  have hG : (sid ++ 0 :: payload).take sid.length = sid :=
    take_length_append sid (0 :: payload)
  have hH : (sid ++ 0 :: payload).drop (sid.length + 1) = payload :=
    drop_length_succ_append sid 0 payload
  rw [henc]
  simp only [decodeBinaryFrame, if_neg hlen9, hA, hAscii, if_true, hC, hD, hE,
    if_neg hF, hG, if_neg hsidNE, hsidU, hH,
    natFromBytesBE_natToBytesBE4 seq hseq]

/-- Witness for `binary_frame_roundtrip` at the concrete frame
`("VID:", 258, "s1", [255, 0, 16])`. -/
theorem binary_frame_roundtrip_witness :
    decodeBinaryFrame (encodeBinaryFrame [86, 73, 68, 58] 258 (some [115, 49]) [255, 0, 16]) =
      some ⟨[86, 73, 68, 58], 258, some [115, 49], [255, 0, 16]⟩ :=
  binary_frame_roundtrip [86, 73, 68, 58] 258 [115, 49] [255, 0, 16]
    (by decide) (by decide) (by decide) (by decide) (by decide) (by decide)

/-- C2 counterexample: with an empty stream id (permitted by the claim),
the decoder returns a missing (`None`) stream id — Python evaluates
`stream_id_bytes.decode("utf-8") if stream_id_bytes else None` to `None`
for empty bytes — so the original tuple with stream id `""` is not
recovered. -/
theorem binary_frame_roundtrip_counterexample :
    decodeBinaryFrame (encodeBinaryFrame [73, 77, 71, 58] 1 (some []) [42]) =
      some ⟨[73, 77, 71, 58], 1, none, [42]⟩ ∧
    some (⟨[73, 77, 71, 58], 1, none, [42]⟩ : BinaryFrame) ≠
      some (⟨[73, 77, 71, 58], 1, some [], [42]⟩ : BinaryFrame) := by
  constructor
  · decide
  · decide

/-- C7: a binary message shorter than the 9-byte minimum, or with no null
terminator at or after offset 8, decodes to `none` (logged and dropped,
no exception), and dropping it leaves the processing of every other
message on the connection unchanged. -/
theorem binary_decode_error_logged_and_dropped (msg : List Nat)
    (pre post : List (List Nat))
    (h : msg.length < 9 ∨ ∀ x ∈ msg.drop 8, x ≠ 0) :
    decodeBinaryFrame msg = none ∧
    processBinaryMessages (pre ++ msg :: post) =
      processBinaryMessages pre ++ processBinaryMessages post := by
  have hnone : decodeBinaryFrame msg = none := by
    rcases h with h | h
    · simp [decodeBinaryFrame, h]
    · by_cases h9 : msg.length < 9
      · simp [decodeBinaryFrame, h9]
      · by_cases hasc : ((msg.take 4).all fun x => decide (x < 128)) = true
        · have hf : (msg.drop 8).findIdx (fun x => x == 0) = (msg.drop 8).length :=
            findIdx_eq_length_of_no_zero (msg.drop 8) h
          simp [decodeBinaryFrame, h9, hasc, hf]
        · simp [decodeBinaryFrame, h9, hasc]
  refine ⟨hnone, ?_⟩
  simp [processBinaryMessages, List.filterMap_append, hnone]

/-- Witness for `binary_decode_error_logged_and_dropped`: the 3-byte
message `[1, 2, 3]` is dropped and the neighbouring messages decode as if
it were absent. -/
theorem binary_decode_error_logged_and_dropped_witness :
    decodeBinaryFrame [1, 2, 3] = none ∧
    processBinaryMessages
        ([[73, 77, 71, 58, 0, 0, 0, 1, 0, 42]] ++ [1, 2, 3] ::
          [[86, 73, 68, 58, 0, 0, 0, 2, 115, 49, 0, 7]]) =
      processBinaryMessages [[73, 77, 71, 58, 0, 0, 0, 1, 0, 42]] ++
        processBinaryMessages [[86, 73, 68, 58, 0, 0, 0, 2, 115, 49, 0, 7]] :=
  binary_decode_error_logged_and_dropped [1, 2, 3]
    [[73, 77, 71, 58, 0, 0, 0, 1, 0, 42]]
    [[86, 73, 68, 58, 0, 0, 0, 2, 115, 49, 0, 7]]
    (Or.inl (by decide))

/-! ## Command correlation: futures, responses, disconnect

Embeds `ConnectionManager` (src/server/connection_manager.py): pending
commands are `asyncio.Future` objects keyed by `command_id`; a future is
resolved once, either by `handle_command_response` (`set_result`) or by
`disconnect` (`set_exception`), and `send_command_to_client` awaits it
with a timeout. -/

/-- JSON object payloads (`Dict[str, Any]`), embedded as association lists
with string values; only presence/emptiness and equality matter to the
claims. -/
abbrev JsonData := List (String × String)

/-- The dict returned by `send_command_to_client` and built by
`handle_command_response`: keys `status`, `command_id`, `data`,
`error_message` (`none` models an absent or `None` value). -/
structure CmdResult where
  status : String
  command_id : Option String
  data : Option JsonData
  error_message : Option String
deriving DecidableEq, Repr

/-- Python truthiness of an optional dict (`if data:`): `None` and the
empty dict are falsy. -/
def truthyData : Option JsonData → Option JsonData
  | some l => if l = [] then none else some l
  | none => none

/-- Python truthiness of an optional string (`if error_message:`): `None`
and the empty string are falsy. -/
def truthyStr : Option String → Option String
  | some s => if s = "" then none else some s
  | none => none

/-- The `response_package` dict built in
`ConnectionManager.handle_command_response` (connection_manager.py
228-237): `status` and `command_id` always present, `data` and
`error_message` only when truthy. -/
def mkResponsePackage (status command_id : String) (data : Option JsonData)
    (error_message : Option String) : CmdResult :=
  { status := status
    command_id := some command_id
    data := truthyData data
    error_message := truthyStr error_message }

/-- State of one `asyncio.Future` in a `pending_commands` table:
unresolved, resolved by `set_result`, or failed by `set_exception`
(carrying the `RuntimeError` message). -/
inductive FutureState where
  | pending
  | resolvedOk (result : CmdResult)
  | resolvedErr (msg : String)
deriving DecidableEq, Repr

/-- Python `future.done()`. -/
def FutureState.isDone : FutureState → Bool
  | .pending => false
  | _ => true

/-- The `RuntimeError` message raised into a pending future by
`ConnectionManager.disconnect` (connection_manager.py 108-112). -/
def disconnectErrMsg (cmd_id reason : String) : String :=
  "Client disconnected before command " ++ cmd_id ++ " response: " ++ reason

/-- An event that can touch the future of one in-flight command while its
caller is awaiting it: a matching `command_response` arrives
(`handle_command_response`, its slot found and not done), or the client
Session is disconnected (`disconnect`). -/
inductive CmdEvent where
  | respArrived (status : String) (data : Option JsonData) (errMsg : Option String)
  | disconnected (reason : String)
deriving DecidableEq, Repr

/-- How one event updates the future of command `cmd_id`: both
`handle_command_response` (connection_manager.py 222-239) and `disconnect`
(107-112) first check `future.done()` and leave a resolved future
untouched; otherwise they resolve it exactly once. -/
def stepFuture (cmd_id : String) (f : FutureState) (e : CmdEvent) : FutureState :=
  match e with
  | .respArrived st d em =>
      if f.isDone then f else .resolvedOk (mkResponsePackage st cmd_id d em)
  | .disconnected r =>
      if f.isDone then f else .resolvedErr (disconnectErrMsg cmd_id r)

/-- The future state after a sequence of events, starting from the fresh
`asyncio.Future()` created in `send_command_to_client`
(connection_manager.py 164-165). -/
def runEvents (cmd_id : String) (events : List CmdEvent) : FutureState :=
  events.foldl (stepFuture cmd_id) .pending

/-- The timeout dict returned by `send_command_to_client` when
`asyncio.wait_for` raises `TimeoutError` (connection_manager.py 181-189). -/
def timeoutResult (cmd_id : String) : CmdResult :=
  { status := "error"
    command_id := some cmd_id
    data := none
    error_message := some "Timeout waiting for client response." }

/-- The dict returned by `send_command_to_client` when awaiting the future
raises any other exception, e.g. the disconnect `RuntimeError`
(connection_manager.py 190-198). -/
def serverErrorResult (cmd_id msg : String) : CmdResult :=
  { status := "error"
    command_id := some cmd_id
    data := none
    error_message := some ("Server error: " ++ msg) }

/-- What `await asyncio.wait_for(future, timeout)` delivers to
`send_command_to_client`'s caller, as a function of the future's state
when the wait ends: the set result, the timeout dict if the future is
still pending at expiry, or the server-error dict when the future holds
an exception (connection_manager.py 172-198). -/
def awaitCommandResult (cmd_id : String) (f : FutureState) : CmdResult :=
  match f with
  | .pending => timeoutResult cmd_id
  | .resolvedOk r => r
  | .resolvedErr m => serverErrorResult cmd_id m

lemma runEvents_ok_command_id (cmd_id : String) (events : List CmdEvent)
    (f₀ : FutureState)
    (h : ∀ r, f₀ = .resolvedOk r → r.command_id = some cmd_id) :
    ∀ r, events.foldl (stepFuture cmd_id) f₀ = .resolvedOk r →
      r.command_id = some cmd_id := by
  induction events generalizing f₀ with
  | nil => exact h
  | cons e t ih =>
    refine ih (stepFuture cmd_id f₀ e) ?_
    intro r hr
    cases e with
    | respArrived st d em =>
      by_cases hd : f₀.isDone
      · exact h r (by simpa [stepFuture, hd] using hr)
      · simp only [stepFuture, hd, if_neg, Bool.false_eq_true, ite_false] at hr
        cases hr
        rfl
    | disconnected rn =>
      by_cases hd : f₀.isDone
      · exact h r (by simpa [stepFuture, hd] using hr)
      · simp [stepFuture, hd] at hr

/-- C1: a future, once resolved, is never changed by a later response or
disconnect (`future.done()` guards in both resolvers), and for any
sequence of events the awaiting caller of `send_command_to_client`
receives exactly one resolution — the client's response echoing the
command id, the timeout error, or the disconnect-driven server error —
the three cases being mutually exclusive states of the single future. -/
theorem command_exactly_one_resolution (cmd_id : String) (events : List CmdEvent)
    (f : FutureState) (e : CmdEvent) (hf : f.isDone = true) :
    stepFuture cmd_id f e = f ∧
    ((runEvents cmd_id events = .pending ∧
        awaitCommandResult cmd_id (runEvents cmd_id events) = timeoutResult cmd_id) ∨
      (∃ r, runEvents cmd_id events = .resolvedOk r ∧
        awaitCommandResult cmd_id (runEvents cmd_id events) = r ∧
        r.command_id = some cmd_id) ∨
      (∃ m, runEvents cmd_id events = .resolvedErr m ∧
        awaitCommandResult cmd_id (runEvents cmd_id events) =
          serverErrorResult cmd_id m)) := by
  constructor
  · cases e <;> simp [stepFuture, hf]
  · cases hrun : runEvents cmd_id events with
    | pending => exact Or.inl ⟨rfl, rfl⟩
    | resolvedOk r =>
      refine Or.inr (Or.inl ⟨r, rfl, rfl, ?_⟩)
      exact runEvents_ok_command_id cmd_id events .pending (by intro r h; cases h) r hrun
    | resolvedErr m => exact Or.inr (Or.inr ⟨m, rfl, rfl⟩)

/-- Witness for `command_exactly_one_resolution`: a response followed by a
late disconnect leaves the response as the single resolution. -/
theorem command_exactly_one_resolution_witness :
    stepFuture "cmd_1" (.resolvedErr "gone") (.respArrived "success" none none) =
      .resolvedErr "gone" ∧
    ((runEvents "cmd_1" [.respArrived "success" none none, .disconnected "gone"] = .pending ∧
        awaitCommandResult "cmd_1"
          (runEvents "cmd_1" [.respArrived "success" none none, .disconnected "gone"]) =
          timeoutResult "cmd_1") ∨
      (∃ r, runEvents "cmd_1" [.respArrived "success" none none, .disconnected "gone"] =
            .resolvedOk r ∧
        awaitCommandResult "cmd_1"
          (runEvents "cmd_1" [.respArrived "success" none none, .disconnected "gone"]) = r ∧
        r.command_id = some "cmd_1") ∨
      (∃ m, runEvents "cmd_1" [.respArrived "success" none none, .disconnected "gone"] =
            .resolvedErr m ∧
        awaitCommandResult "cmd_1"
          (runEvents "cmd_1" [.respArrived "success" none none, .disconnected "gone"]) =
          serverErrorResult "cmd_1" m)) :=
  command_exactly_one_resolution "cmd_1"
    [.respArrived "success" none none, .disconnected "gone"]
    (.resolvedErr "gone") (.respArrived "success" none none) (by decide)

/-! ## Connection manager state

`ClientInfo` and `ConnectionManager` (connection_manager.py 13-33 and
69-72).  The WebSocket object and the `client_id_by_websocket` index carry
no protocol state relevant to the claims and are omitted; `active_streams`
is kept as its key set (the per-stream parameter dicts do not enter these
claims). -/

/-- One connected client's Session state (`ClientInfo`). -/
structure ClientInfoM where
  client_id : String
  name : String
  platform : String
  capabilities : List String
  active_streams : List String
  pending_commands : List (String × FutureState)
deriving DecidableEq, Repr

/-- The server's registry (`ConnectionManager.active_connections`). -/
structure ConnectionManagerState where
  active_connections : List (String × ClientInfoM)
deriving DecidableEq, Repr

/-- Update the value stored at an existing key of an association list
(embedding in-place mutation of the object held in a Python dict). -/
def updateA {α : Type} (k : String) (v : α) :
    List (String × α) → List (String × α) :=
  fun l => l.map (fun p => if p.1 = k then (k, v) else p)

/-- `ConnectionManager.handle_command_response` (connection_manager.py
202-242): unknown client → logged, no change; unknown or timed-out
`command_id` → logged, no change; future already done → logged, no
change; otherwise the future is set to the response package. -/
def handle_command_response (m : ConnectionManagerState)
    (client_id command_id status : String)
    (data : Option JsonData) (error_message : Option String) :
    ConnectionManagerState :=
  match m.active_connections.lookup client_id with
  | none => m
  | some ci =>
    match ci.pending_commands.lookup command_id with
    | none => m
    | some fut =>
      if fut.isDone then m
      else
        let pkg := FutureState.resolvedOk
          (mkResponsePackage status command_id data error_message)
        let ci2 := { ci with
          pending_commands := updateA command_id pkg ci.pending_commands }
        { active_connections := updateA client_id ci2 m.active_connections }

/-- C6: a command response for a `command_id` whose slot was already
removed (delivered or timed out) or whose future is already resolved is a
no-op: the manager state — and with it every future and every result
already delivered — is unchanged. -/
theorem late_response_is_noop (m : ConnectionManagerState)
    (client_id command_id status : String)
    (data : Option JsonData) (error_message : Option String) (ci : ClientInfoM)
    (hci : m.active_connections.lookup client_id = some ci)
    (h : ci.pending_commands.lookup command_id = none ∨
      ∃ f, ci.pending_commands.lookup command_id = some f ∧ f.isDone = true) :
    handle_command_response m client_id command_id status data error_message = m := by
  rcases h with h | ⟨f, hf, hdone⟩
  · simp [handle_command_response, hci, h]
  · simp [handle_command_response, hci, hf, hdone]

/-- Witness for `late_response_is_noop`: a duplicate response for an
already-resolved command changes nothing. -/
theorem late_response_is_noop_witness :
    handle_command_response
      ⟨[("c1", ⟨"c1", "DevA", "linux", ["speak_text"], [],
          [("cmd_1", .resolvedOk (mkResponsePackage "success" "cmd_1" none none))]⟩)]⟩
      "c1" "cmd_1" "error" none (some "late duplicate") =
    ⟨[("c1", ⟨"c1", "DevA", "linux", ["speak_text"], [],
        [("cmd_1", .resolvedOk (mkResponsePackage "success" "cmd_1" none none))]⟩)]⟩ :=
  late_response_is_noop _ "c1" "cmd_1" "error" none (some "late duplicate")
    ⟨"c1", "DevA", "linux", ["speak_text"], [],
      [("cmd_1", .resolvedOk (mkResponsePackage "success" "cmd_1" none none))]⟩
    (by decide)
    (Or.inr ⟨.resolvedOk (mkResponsePackage "success" "cmd_1" none none), by decide, rfl⟩)

/-- The per-future effect of `ConnectionManager.disconnect`
(connection_manager.py 106-113) on the client's pending commands: every
future that is not yet done gets `set_exception(RuntimeError(...))`; done
futures keep their value.  These futures survive with their awaiters even
though every entry is then popped from `pending_commands`. -/
def disconnectResolvedFutures (pending : List (String × FutureState))
    (reason : String) : List (String × FutureState) :=
  pending.map (fun p =>
    (p.1, if p.2.isDone then p.2 else .resolvedErr (disconnectErrMsg p.1 reason)))

/-- `ConnectionManager.disconnect` (connection_manager.py 101-120): pops
the client from `active_connections`; fails every not-done pending future
with the disconnect `RuntimeError` and pops every entry from the client's
`pending_commands`.  Returns the new manager state, the popped (mutated)
`ClientInfo` — note its `active_streams` is NOT touched — and the final
states of the pending futures as seen by their awaiters. -/
def disconnect (m : ConnectionManagerState) (client_id reason : String) :
    ConnectionManagerState × Option ClientInfoM × List (String × FutureState) :=
  match m.active_connections.lookup client_id with
  | none => (m, none, [])
  | some ci =>
    ( { active_connections :=
          m.active_connections.filter (fun p => !(p.1 == client_id)) },
      some { ci with pending_commands := [] },
      disconnectResolvedFutures ci.pending_commands reason )

lemma lookup_filter_out (l : List (String × ClientInfoM)) (k : String) :
    (l.filter (fun p => !(p.1 == k))).lookup k = none := by
  induction l with
  | nil => simp
  | cons a t ih =>
    by_cases h : a.1 = k
    · have h1 : (a.1 == k) = true := beq_iff_eq.mpr h
      simp [List.filter_cons, h1, ih]
    · have h1 : (a.1 == k) = false := beq_eq_false_iff_ne.mpr h
      have h2 : (k == a.1) = false := beq_eq_false_iff_ne.mpr (Ne.symm h)
      simp [List.filter_cons, h1, h2, List.lookup, ih]

/-- C3 (amended): disconnecting a Session with pending commands resolves
every not-yet-done pending future with the disconnect error, empties the
Session's pending-command table, and removes the Session from the
registry; the Session object's open-stream set, however, is NOT cleared —
the popped `ClientInfo` keeps its `active_streams` unchanged (see
`disconnect_counterexample`), the streams becoming unreachable only
because the Session is gone from `active_connections` (the endpoint's
cleanup separately stops their recordings). -/
theorem disconnect_resolves_all_pending (m : ConnectionManagerState)
    (client_id reason : String) (ci : ClientInfoM)
    (hci : m.active_connections.lookup client_id = some ci)
    (hpend : ∀ p ∈ ci.pending_commands, p.2.isDone = false) :
    (disconnect m client_id reason).2.2 =
      ci.pending_commands.map
        (fun p => (p.1, FutureState.resolvedErr (disconnectErrMsg p.1 reason))) ∧
    (disconnect m client_id reason).2.1 = some { ci with pending_commands := [] } ∧
    ((disconnect m client_id reason).1.active_connections.lookup client_id = none) := by
  unfold disconnect
  rw [hci]
  refine ⟨?_, rfl, lookup_filter_out _ _⟩
  unfold disconnectResolvedFutures
  apply List.map_congr_left
  intro p hp
  rw [hpend p hp]
  simp

/-- Witness for `disconnect_resolves_all_pending`: one client with two
in-flight commands. -/
theorem disconnect_resolves_all_pending_witness :
    (disconnect
        ⟨[("c1", ⟨"c1", "DevA", "linux", [], ["s1"],
            [("cmd_1", .pending), ("cmd_2", .pending)]⟩)]⟩
        "c1" "Client disconnected").2.2 =
      [("cmd_1", FutureState.resolvedErr (disconnectErrMsg "cmd_1" "Client disconnected")),
        ("cmd_2", FutureState.resolvedErr (disconnectErrMsg "cmd_2" "Client disconnected"))] ∧
    (disconnect
        ⟨[("c1", ⟨"c1", "DevA", "linux", [], ["s1"],
            [("cmd_1", .pending), ("cmd_2", .pending)]⟩)]⟩
        "c1" "Client disconnected").2.1 =
      some ⟨"c1", "DevA", "linux", [], ["s1"], []⟩ ∧
    ((disconnect
        ⟨[("c1", ⟨"c1", "DevA", "linux", [], ["s1"],
            [("cmd_1", .pending), ("cmd_2", .pending)]⟩)]⟩
        "c1" "Client disconnected").1.active_connections.lookup "c1" = none) :=
  disconnect_resolves_all_pending _ "c1" "Client disconnected"
    ⟨"c1", "DevA", "linux", [], ["s1"], [("cmd_1", .pending), ("cmd_2", .pending)]⟩
    (by decide) (by decide)

/-- C3 counterexample: after disconnecting a client that owns stream
`"s1"`, the popped Session object still lists `"s1"` in its open-stream
set — `disconnect` never clears `active_streams` (and the endpoint's
`finally` block only stops recordings, it does not clear the set either),
so the claimed "open-stream set is cleared to empty" is false for the
Session's own state. -/
theorem disconnect_counterexample :
    ((disconnect
        ⟨[("c1", ⟨"c1", "DevA", "linux", [], ["s1"], [("cmd_1", .pending)]⟩)]⟩
        "c1" "Client disconnected").2.1).map ClientInfoM.active_streams =
      some ["s1"] ∧
    some ["s1"] ≠ some ([] : List String) := by
  constructor
  · decide
  · decide

/-! ## Reconnection supervisor (client side)

`NetworkLogic.connect_and_run` (src/client/network_logic.py 60-153),
`finally` block 125-152, with configuration from `ClientConfig`
(src/client/client_config.py 72-76). -/

/-- Network settings of `ClientConfig` relevant to reconnection
(client_config.py 74-75); defaults 5 and 5. -/
structure ClientConfigM where
  RECONNECT_DELAY_SECONDS : Nat := 5
  MAX_RECONNECT_ATTEMPTS : Nat := 5
deriving DecidableEq, Repr

/-- Supervisor state carried across cycles of `connect_and_run`:
`self.reconnect_attempts` and `self.is_running`. -/
structure SupervisorState where
  reconnect_attempts : Nat
  is_running : Bool
deriving DecidableEq, Repr

/-- The backoff delay computed in `connect_and_run` (network_logic.py
143-145): `RECONNECT_DELAY_SECONDS * 2 ** min(reconnect_attempts - 1, 4)`
evaluated after the increment. -/
def reconnect_backoff_delay (cfg : ClientConfigM) (attempts : Nat) : Nat :=
  cfg.RECONNECT_DELAY_SECONDS * 2 ^ min (attempts - 1) 4

/-- The `finally` block of one unsuccessful connection cycle
(network_logic.py 130-152): if still running, increment the attempt
counter; strictly above `MAX_RECONNECT_ATTEMPTS`, stop permanently and
invoke the shutdown callback; otherwise sleep the backoff delay and
retry.  Returns (new state, delay slept before the next attempt if any,
whether the shutdown callback was invoked). -/
def on_failed_cycle (cfg : ClientConfigM) (s : SupervisorState) :
    SupervisorState × Option Nat × Bool :=
  if s.is_running then
    let attempts := s.reconnect_attempts + 1
    if attempts > cfg.MAX_RECONNECT_ATTEMPTS then
      ({ reconnect_attempts := attempts, is_running := false }, none, true)
    else
      ({ reconnect_attempts := attempts, is_running := true },
        some (reconnect_backoff_delay cfg attempts), false)
  else (s, none, false)

/-- C4: after the k-th consecutive unsuccessful cycle (counter at `k - 1`
going in, reset to 0 only by a successful connection), the delay before
the next attempt is `RECONNECT_DELAY_SECONDS * 2 ^ min (k - 1) 4` as long
as `k ≤ MAX_RECONNECT_ATTEMPTS`; consecutive delays are non-decreasing;
the supervisor stops and signals the shutdown callback exactly when `k`
strictly exceeds `MAX_RECONNECT_ATTEMPTS`; and a stopped supervisor makes
no further attempts. -/
theorem reconnect_backoff_policy (cfg : ClientConfigM) (k : Nat)
    (s : SupervisorState) (hk : 1 ≤ k) (hs : s.is_running = false) :
    (k ≤ cfg.MAX_RECONNECT_ATTEMPTS →
      on_failed_cycle cfg { reconnect_attempts := k - 1, is_running := true } =
        ({ reconnect_attempts := k, is_running := true },
          some (cfg.RECONNECT_DELAY_SECONDS * 2 ^ min (k - 1) 4), false)) ∧
    (cfg.MAX_RECONNECT_ATTEMPTS < k →
      on_failed_cycle cfg { reconnect_attempts := k - 1, is_running := true } =
        ({ reconnect_attempts := k, is_running := false }, none, true)) ∧
    reconnect_backoff_delay cfg k ≤ reconnect_backoff_delay cfg (k + 1) ∧
    on_failed_cycle cfg s = (s, none, false) := by
  have hk1 : k - 1 + 1 = k := Nat.succ_pred_eq_of_pos hk
  refine ⟨?_, ?_, ?_, ?_⟩
  · intro hle
    have h2 : ¬ (k > cfg.MAX_RECONNECT_ATTEMPTS) := by omega
    simp [on_failed_cycle, reconnect_backoff_delay, hk1, h2]
  · intro hgt
    simp [on_failed_cycle, hk1, hgt]
  · unfold reconnect_backoff_delay
    refine Nat.mul_le_mul_left _ (Nat.pow_le_pow_right (by omega) ?_)
    exact min_le_min (by omega) (Nat.le_refl 4)
  · simp [on_failed_cycle, hs]

/-- Witness for `reconnect_backoff_policy` at the default configuration:
first failure sleeps 5 s; the sixth failure (counter 5) stops the
supervisor and signals shutdown; a stopped supervisor does nothing. -/
theorem reconnect_backoff_policy_witness :
    on_failed_cycle ⟨5, 5⟩ ⟨0, true⟩ = (⟨1, true⟩, some 5, false) ∧
    on_failed_cycle ⟨5, 5⟩ ⟨5, true⟩ = (⟨6, false⟩, none, true) ∧
    on_failed_cycle ⟨5, 5⟩ ⟨7, false⟩ = (⟨7, false⟩, none, false) := by
  refine ⟨?_, ?_, ?_⟩
  · simpa using (reconnect_backoff_policy ⟨5, 5⟩ 1 ⟨7, false⟩ (by decide) rfl).1 (by decide)
  · simpa using (reconnect_backoff_policy ⟨5, 5⟩ 6 ⟨7, false⟩ (by decide) rfl).2.1 (by decide)
  · exact (reconnect_backoff_policy ⟨5, 5⟩ 6 ⟨7, false⟩ (by decide) rfl).2.2.2

/-! ## HTTP command endpoint (server side)

`send_client_command` (src/server/main_server.py 481-499): POST
`/clients/{client_id}/commands/{command_action}`. -/

/-- Python substring membership `needle in hay` on character lists. -/
def listContainsSub (needle : List Char) : List Char → Bool
  | [] => needle.isEmpty
  | c :: rest => needle.isPrefixOf (c :: rest) || listContainsSub needle rest

/-- Python `needle in hay` for strings. -/
def strContains (hay needle : String) : Bool :=
  listContainsSub needle.toList hay.toList

/-- Outcome delivered to the HTTP caller: a 200 body, or an
`HTTPException` with a status code. -/
inductive HTTPOutcome where
  | ok (response : CmdResult)
  | httpError (code : Nat)
deriving DecidableEq, Repr

/-- `send_client_command` (main_server.py 481-499): 404 when the
`client_id` is not registered; otherwise classify the dict returned by
`send_command_to_client` (parameter `response`, cf. `awaitCommandResult`).
Every error dict that function returns carries the `error_message` key,
so `response.get("error_message", "")` yields its value: a string, or
`None` for a response package built from a client error response with a
falsy message (connection_manager.py 228-237) — and then
`"Timeout" in None` raises `TypeError`, which escapes the endpoint and
is surfaced by the framework's server-error handling as HTTP 500.  A
string containing "Timeout" → 408, containing "Client not connected" →
404, any other error → 502; a non-error response is returned with
HTTP 200. -/
def send_client_command (m : ConnectionManagerState) (client_id : String)
    (response : CmdResult) : HTTPOutcome :=
  if (m.active_connections.lookup client_id).isSome = false then .httpError 404
  else if response.status = "error" then
    match response.error_message with
    | none => .httpError 500
    | some em =>
      if strContains em "Timeout" then .httpError 408
      else if strContains em "Client not connected" then .httpError 404
      else .httpError 502
  else .ok response

/-- C5 (amended): an unregistered `client_id` yields HTTP 404; for a
registered client, an await timeout yields 408; a client error response
carrying a message that contains neither "Timeout" nor
"Client not connected" yields 502; a client error response carrying no
message (its `error_message` is `None` in the response package) makes
the endpoint's substring test raise `TypeError`, surfaced as HTTP 500;
every error outcome surfaces as one of 404/408/502/500 — not always one
of the claimed three distinguishable codes — and a non-error response is
returned with HTTP 200.  The classification is by substring, so a client
error message that happens to contain "Timeout" is reported as 408, not
502 — see `send_client_command_counterexample`. -/
theorem send_client_command_error_codes (m : ConnectionManagerState)
    (client_id c em : String) (response : CmdResult) :
    (m.active_connections.lookup client_id = none →
      send_client_command m client_id response = .httpError 404) ∧
    ((m.active_connections.lookup client_id).isSome = true →
      (send_client_command m client_id (timeoutResult c) = .httpError 408) ∧
      (response.status = "error" → response.error_message = some em →
        strContains em "Timeout" = false →
        strContains em "Client not connected" = false →
        send_client_command m client_id response = .httpError 502) ∧
      (response.status = "error" → response.error_message = none →
        send_client_command m client_id response = .httpError 500) ∧
      (response.status = "error" →
        send_client_command m client_id response = .httpError 408 ∨
        send_client_command m client_id response = .httpError 404 ∨
        send_client_command m client_id response = .httpError 502 ∨
        send_client_command m client_id response = .httpError 500) ∧
      (response.status ≠ "error" →
        send_client_command m client_id response = .ok response)) := by
  constructor
  · intro h
    simp [send_client_command, h]
  · intro hconn
    refine ⟨?_, ?_, ?_, ?_, ?_⟩
    · have h1 : strContains "Timeout waiting for client response." "Timeout" = true := by
        decide
      simp [send_client_command, hconn, timeoutResult, h1]
    · intro herr hem h1 h2
      simp [send_client_command, hconn, herr, hem, h1, h2]
    · intro herr hem
      simp [send_client_command, hconn, herr, hem]
    · intro herr
      cases hem : response.error_message with
      | none =>
        exact Or.inr (Or.inr (Or.inr (by simp [send_client_command, hconn, herr, hem])))
      | some s =>
        by_cases h1 : strContains s "Timeout" = true
        · exact Or.inl (by simp [send_client_command, hconn, herr, hem, h1])
        · by_cases h2 : strContains s "Client not connected" = true
          · refine Or.inr (Or.inl ?_)
            simp at h1
            simp [send_client_command, hconn, herr, hem, h1, h2]
          · refine Or.inr (Or.inr (Or.inl ?_))
            simp at h1 h2
            simp [send_client_command, hconn, herr, hem, h1, h2]
    · intro hok
      simp [send_client_command, hconn, hok]

/-- Witness for `send_client_command_error_codes`: an unknown client id
gives 404; for a registered client a timeout gives 408, an unknown-action
error gives 502, a messageless error response gives 500, and a success
response passes through. -/
theorem send_client_command_error_codes_witness :
    (send_client_command ⟨[]⟩ "ghost"
        (mkResponsePackage "success" "cmd_1" none none) = .httpError 404) ∧
    (send_client_command ⟨[("c1", ⟨"c1", "DevA", "linux", [], [], []⟩)]⟩ "c1"
        (timeoutResult "cmd_2") = .httpError 408) ∧
    (send_client_command ⟨[("c1", ⟨"c1", "DevA", "linux", [], [], []⟩)]⟩ "c1"
        (mkResponsePackage "error" "cmd_3" none (some "Unknown action: dance")) =
      .httpError 502) ∧
    (send_client_command ⟨[("c1", ⟨"c1", "DevA", "linux", [], [], []⟩)]⟩ "c1"
        (mkResponsePackage "error" "cmd_5" none none) = .httpError 500) ∧
    (send_client_command ⟨[("c1", ⟨"c1", "DevA", "linux", [], [], []⟩)]⟩ "c1"
        (mkResponsePackage "success" "cmd_4" none none) =
      .ok (mkResponsePackage "success" "cmd_4" none none)) :=
  ⟨(send_client_command_error_codes ⟨[]⟩ "ghost" "cmd_2" "x"
      (mkResponsePackage "success" "cmd_1" none none)).1 (by decide),
    ((send_client_command_error_codes ⟨[("c1", ⟨"c1", "DevA", "linux", [], [], []⟩)]⟩
        "c1" "cmd_2" "x" (mkResponsePackage "success" "cmd_1" none none)).2
      (by decide)).1,
    (((send_client_command_error_codes ⟨[("c1", ⟨"c1", "DevA", "linux", [], [], []⟩)]⟩
        "c1" "cmd_2" "Unknown action: dance"
        (mkResponsePackage "error" "cmd_3" none (some "Unknown action: dance"))).2
      (by decide)).2.1 (by decide) (by decide) (by decide) (by decide)),
    (((send_client_command_error_codes ⟨[("c1", ⟨"c1", "DevA", "linux", [], [], []⟩)]⟩
        "c1" "cmd_2" "x" (mkResponsePackage "error" "cmd_5" none none)).2
      (by decide)).2.2.1 (by decide) (by decide)),
    (((send_client_command_error_codes ⟨[("c1", ⟨"c1", "DevA", "linux", [], [], []⟩)]⟩
        "c1" "cmd_2" "x" (mkResponsePackage "success" "cmd_4" none none)).2
      (by decide)).2.2.2.2 (by decide))⟩

/-- C5 counterexample: a client error response — e.g. the dispatcher's
conversion of a handler exception whose description contains "Timeout" —
is classified by substring and surfaces as HTTP 408, not the claimed
502. -/
theorem send_client_command_counterexample :
    send_client_command ⟨[("c1", ⟨"c1", "DevA", "linux", [], [], []⟩)]⟩ "c1"
        (mkResponsePackage "error" "cmd_9" none
          (some "Client execution error: Timeout")) =
      .httpError 408 ∧
    HTTPOutcome.httpError 408 ≠ HTTPOutcome.httpError 502 := by
  constructor
  · decide
  · decide

/-! ## Client command dispatcher

`NetworkLogic._execute_command` (src/client/network_logic.py 339-368) and
`send_command_response` (469-483). -/

/-- The `CommandResponse` message sent back by the client
(shared/message_models.py 12-16). -/
structure CommandResponseMsg where
  command_id : String
  status : String
  data : Option JsonData
  error_message : Option String
deriving DecidableEq, Repr

/-- An error `CommandResponse` as produced by
`send_command_response(command_id, "error", error_message=msg)`. -/
def errorResponse (command_id msg : String) : CommandResponseMsg :=
  { command_id := command_id
    status := "error"
    data := none
    error_message := some msg }

/-- What `getattr(self, f"_action_{action}", None)` can produce: an async
handler (its awaited run either completes, having sent its own responses,
or raises an exception message — embedded as `Except`), a non-coroutine
attribute, or nothing. -/
inductive HandlerSpec where
  | asyncHandler (run : String → JsonData → Except String Unit)
  | nonAsyncAttr

/-- `NetworkLogic._execute_command` (network_logic.py 339-368): lookup by
action name; an exception from an awaited handler is caught and converted
to an error response; a non-coroutine handler and an unknown action each
produce an error response.  The returned value is the response the
dispatcher itself sends (`none` when the handler completed and sent its
own); the function is total — no failure propagates out into the receive
loop. -/
def execute_command (handlers : String → Option HandlerSpec)
    (command_id action : String) (params : Option JsonData) :
    Option CommandResponseMsg :=
  match handlers action with
  | some (.asyncHandler run) =>
    match run command_id (params.getD []) with
    | .ok _ => none
    | .error e => some (errorResponse command_id ("Client execution error: " ++ e))
  | some .nonAsyncAttr =>
    some (errorResponse command_id
      ("Client internal error: Action \x27" ++ action ++
        "\x27 is not correctly implemented as async."))
  | none => some (errorResponse command_id ("Unknown action: " ++ action))

/-- C8: an unknown action is answered with an error response naming the
action, and a handler that raises is caught and answered with an error
response carrying the failure's description; `execute_command` is a total
function into responses, so neither failure propagates out of dispatch
into the receive loop. -/
theorem dispatcher_converts_failures (handlers : String → Option HandlerSpec)
    (command_id action : String) (params : Option JsonData)
    (run : String → JsonData → Except String Unit) (e : String) :
    (handlers action = none →
      execute_command handlers command_id action params =
        some (errorResponse command_id ("Unknown action: " ++ action))) ∧
    (handlers action = some (.asyncHandler run) →
      run command_id (params.getD []) = .error e →
      execute_command handlers command_id action params =
        some (errorResponse command_id ("Client execution error: " ++ e))) := by
  constructor
  · intro h
    simp [execute_command, h]
  · intro h hrun
    simp [execute_command, h, hrun]

/-- Witness for `dispatcher_converts_failures`: a table with one raising
handler answers an unknown action and a raised exception with the two
error responses. -/
theorem dispatcher_converts_failures_witness :
    execute_command
        (fun a => if a = "speak_text"
          then some (.asyncHandler (fun _ _ => .error "boom")) else none)
        "cmd_1" "dance" none =
      some (errorResponse "cmd_1" "Unknown action: dance") ∧
    execute_command
        (fun a => if a = "speak_text"
          then some (.asyncHandler (fun _ _ => .error "boom")) else none)
        "cmd_1" "speak_text" none =
      some (errorResponse "cmd_1" "Client execution error: boom") :=
  ⟨(dispatcher_converts_failures
      (fun a => if a = "speak_text"
        then some (.asyncHandler (fun _ _ => .error "boom")) else none)
      "cmd_1" "dance" none (fun _ _ => .error "boom") "boom").1 (by simp),
    (dispatcher_converts_failures
      (fun a => if a = "speak_text"
        then some (.asyncHandler (fun _ _ => .error "boom")) else none)
      "cmd_1" "speak_text" none (fun _ _ => .error "boom") "boom").2 (by simp) rfl⟩

/-! ## Client video stream start

`NetworkLogic._action_start_video_stream` (src/client/network_logic.py
688-760). -/

/-- `StartVideoStreamParams` (shared/message_models.py 64-69) after
Pydantic validation; `stream_id` carries its default-factory value when
the caller supplied none (a fresh nonempty `stream_...` string). -/
structure StartVideoStreamParamsM where
  stream_id : Option String
  fps : Option Nat
  width : Option Nat
  height : Option Nat
  quality : Option Nat
deriving DecidableEq, Repr

/-- `NetworkLogic._action_start_video_stream` (network_logic.py 688-760)
given the client's capability list and the current keys of
`_active_video_streams`: capability check, stream-id presence check,
duplicate check, then task creation and registration.  Returns the new
active-stream key set, the `CommandResponse` sent, and whether a new
stream task was created.  (Pydantic validation failure of raw params and
the never-raising `asyncio.create_task` error branch are outside this
embedding.) -/
def action_start_video_stream (capabilities : List String)
    (active_streams : List String) (command_id : String)
    (p : StartVideoStreamParamsM) :
    List String × CommandResponseMsg × Bool :=
  if "stream_video" ∉ capabilities then
    (active_streams,
      errorResponse command_id "Video streaming not supported/configured on client.",
      false)
  else
    match p.stream_id with
    | none =>
      (active_streams,
        errorResponse command_id
          "Invalid stream_id provided. Must be a non-empty string.",
        false)
    | some sid =>
      if sid = "" then
        (active_streams,
          errorResponse command_id
            "Invalid stream_id provided. Must be a non-empty string.",
          false)
      else if sid ∈ active_streams then
        (active_streams,
          errorResponse command_id ("Stream " ++ sid ++ " already active."),
          false)
      else
        (active_streams ++ [sid],
          { command_id := command_id
            status := "success"
            data := some [("stream_id", sid), ("message", "Video stream initiated.")]
            error_message := none },
          true)

/-- C9: a `start_video_stream` command whose stream id is already in the
active set is answered with the already-active error response, the active
stream set is returned unchanged, and no new stream task is created. -/
theorem start_stream_duplicate_rejected (capabilities active_streams : List String)
    (command_id sid : String) (p : StartVideoStreamParamsM)
    (hcap : "stream_video" ∈ capabilities) (hsid : p.stream_id = some sid)
    (hne : sid ≠ "") (hmem : sid ∈ active_streams) :
    action_start_video_stream capabilities active_streams command_id p =
      (active_streams,
        errorResponse command_id ("Stream " ++ sid ++ " already active."),
        false) := by
  simp [action_start_video_stream, hcap, hsid, hne, hmem]

/-- Witness for `start_stream_duplicate_rejected` with stream `"s1"`
already active. -/
theorem start_stream_duplicate_rejected_witness :
    action_start_video_stream ["stream_video"] ["s1"] "cmd_1"
        ⟨some "s1", none, none, none, none⟩ =
      (["s1"], errorResponse "cmd_1" "Stream s1 already active.", false) := by
  have h := start_stream_duplicate_rejected ["stream_video"] ["s1"] "cmd_1" "s1"
    ⟨some "s1", none, none, none, none⟩ (by decide) rfl (by decide) (by decide)
  simpa using h

/-! ## Server recording manager

`StreamManager.start_recording` (src/server/stream_manager.py 27-49). -/

/-- The recording file name built in `start_recording` (stream_manager.py
34-35): `f"{stream_id}{client_part}_{int(time.time())}{extension}"` with
spaces in the client name replaced by underscores; the extension default
is `".mp4"` (`STREAM_VIEWER_VIDEO_EXTENSION`, server_config.py 21). -/
def recording_filename (stream_id : String) (client_name : Option String)
    (now : Nat) : String :=
  stream_id ++
    (match client_name with
      | some n => "_" ++ String.map (fun c => if c = ' ' then '_' else c) n
      | none => "") ++
    "_" ++ toString now ++ ".mp4"

/-- `StreamManager.start_recording` (stream_manager.py 27-49) over the
`_recorders` table as a `stream_id → filepath` association list (the
`cv2.VideoWriter` handle is summarized by its output path): refuse while
shutting down; return `True` unchanged when the stream already has a
recorder; otherwise open a writer — `writer_opens` stands for
`recorder.isOpened()` with no exception — and register it, or fail
leaving the table unchanged. -/
def start_recording (is_shutting_down : Bool)
    (recorders : List (String × String)) (stream_id : String)
    (client_name : Option String) (now : Nat) (writer_opens : Bool) :
    Bool × List (String × String) :=
  if is_shutting_down then (false, recorders)
  else if (recorders.lookup stream_id).isSome then (true, recorders)
  else if writer_opens then
    (true, recorders ++ [(stream_id, recording_filename stream_id client_name now)])
  else (false, recorders)

/-- C10: while not shutting down, `start_recording` for a stream that
already has an open recorder returns success and leaves the recorder
table — in particular the existing recorder's output file path —
unchanged, regardless of whether a fresh writer could have been opened:
starting recording is idempotent while a recording is in progress. -/
theorem start_recording_idempotent (recorders : List (String × String))
    (stream_id : String) (client_name : Option String) (now : Nat)
    (writer_opens : Bool) (fp : String)
    (h : recorders.lookup stream_id = some fp) :
    start_recording false recorders stream_id client_name now writer_opens =
      (true, recorders) ∧
    ((start_recording false recorders stream_id client_name now
        writer_opens).2).lookup stream_id = some fp := by
  have h1 : (recorders.lookup stream_id).isSome = true := by rw [h]; rfl
  constructor
  · simp [start_recording, h1]
  · simp [start_recording, h1, h]

/-- Witness for `start_recording_idempotent`: stream `"s1"` is already
recording to `"s1_7.mp4"`. -/
theorem start_recording_idempotent_witness :
    start_recording false [("s1", "s1_7.mp4")] "s1" (some "DevA") 9 true =
      (true, [("s1", "s1_7.mp4")]) ∧
    ((start_recording false [("s1", "s1_7.mp4")] "s1" (some "DevA") 9
        true).2).lookup "s1" = some "s1_7.mp4" :=
  start_recording_idempotent [("s1", "s1_7.mp4")] "s1" (some "DevA") 9 true
    "s1_7.mp4" (by decide)

end Orka
